import Mathlib

/-!
Verification development for the Bitcoin address scanner (`BTC14.py`).

The Python source is embedded shallowly:

* `AddressDatabase` models the class of the same name.  The filesystem is a
  function from paths to optional `File` values; a `File` carries the
  modification time and either the sequence of lines `mmap.readline` would
  return (`content = some lines`) or `none` when opening, memory-mapping or
  reading the file raises (this also covers `mmap` failing on an empty file
  and a line that does not decode as UTF-8).
* `WalletGenerator` models mnemonic generation and per-scheme address
  derivation.  The calls into the `mnemonic` and `bip_utils` libraries are
  abstracted by a `GenOutcome`: either the body succeeds, producing a
  mnemonic together with a per-scheme derivation result (`none` for a scheme
  whose derivation raised inside the inner `try`), or the body raises before
  the derivation loop (`GenOutcome.exn`).
* `ScannerWorker` models the worker's counters and its `run` loop; the loop
  is driven by a finite schedule of iteration outcomes, and the external
  stop request is the `running` flag.
* `start_scan` models the guard logic and worker spawning of
  `MainWindow.start_scan`.
-/

namespace BTC14

/-- The four supported address derivation schemes, the keys of
`WalletGenerator.DERIVATION_PATHS` / the entries of `ADDRESS_TYPES`. -/
inductive Scheme where
  | P2PKH
  | P2SH_P2WPKH
  | P2WPKH
  | P2TR
deriving DecidableEq, BEq

/-- The constant `ADDRESS_TYPES`, which is also the key order of
`WalletGenerator.DERIVATION_PATHS`. -/
def ADDRESS_TYPES : List Scheme :=
  [Scheme.P2PKH, Scheme.P2SH_P2WPKH, Scheme.P2WPKH, Scheme.P2TR]

/-- The constant `BATCH_SIZE = 100000` used to flush batches in
`AddressDatabase.load`. -/
def BATCH_SIZE : Nat := 100000

/-- The constant `DISPLAY_HISTORY = 10` bounding
`WalletGenerator.generation_history`. -/
def DISPLAY_HISTORY : Nat := 10

/-- The characters Python's `bytes.strip()` removes: space, tab, newline,
carriage return, vertical tab and form feed. -/
def isSpace (c : Char) : Bool :=
  c == ' ' || c == '\t' || c == '\n' || c == '\r' || c == '\x0b' || c == '\x0c'

/-- Python's `line.strip()`: drop whitespace from both ends. -/
def strip (s : String) : String :=
  String.mk (((s.data.dropWhile isSpace).reverse.dropWhile isSpace).reverse)

/-- A file on disk: its modification time (`path.stat().st_mtime`) and its
readable content.  `content = some lines` is the sequence of lines
`mm.readline()` yields (each line may carry its newline; `strip` removes it);
`content = none` means opening / memory-mapping / reading raises. -/
structure File where
  mtime : Nat
  content : Option (List String)
deriving DecidableEq

/-- State of `AddressDatabase`: the deduplicated set, the ordered list kept
for display, the cached count, and the path / mtime of the last load
attempt that got past the existence check. -/
structure AddressDatabase where
  addresses : Finset String
  address_list : List String
  count : Nat
  file_path : String
  last_modified : Nat
deriving DecidableEq

/-- The state `AddressDatabase.__init__` produces. -/
def initialDb : AddressDatabase :=
  { addresses := ∅, address_list := [], count := 0, file_path := "", last_modified := 0 }

/-- The read loop of `AddressDatabase.load`: walks the lines, strips each,
skips blanks, accumulates into a batch set and batch list, flushing both
into `temp_set` / `temp_list` whenever the batch set reaches `BATCH_SIZE`,
and flushes the non-empty remainder at the end. -/
def loadLoop : List String → Finset String → List String → Finset String → List String →
    Finset String × List String
  | [], temp_set, temp_list, batch, batch_list =>
      if batch = ∅ then (temp_set, temp_list)
      else (temp_set ∪ batch, temp_list ++ batch_list)
  | line :: rest, temp_set, temp_list, batch, batch_list =>
      let addr := strip line
      if addr = "" then loadLoop rest temp_set temp_list batch batch_list
      else
        let batch1 := insert addr batch
        let batch_list1 := batch_list ++ [addr]
        if BATCH_SIZE ≤ batch1.card then
          loadLoop rest (temp_set ∪ batch1) (temp_list ++ batch_list1) ∅ []
        else
          loadLoop rest temp_set temp_list batch1 batch_list1

/-- The method `AddressDatabase.load`.  Returns the boolean result together
with the state of the database afterwards.  Mirrors the source: a missing
path returns `False` with the state untouched; an unchanged path and mtime
return `True` early; otherwise `last_modified` and `file_path` are updated
before the file is read (so a raise while reading is caught and returns
`False` with those two fields left updated), and on success the freshly
built set and list are published together with the new count. -/
def load (fs : String → Option File) (path : String) (db : AddressDatabase) :
    Bool × AddressDatabase :=
  match fs path with
  | none => (false, db)
  | some file =>
      if db.file_path = path ∧ db.last_modified = file.mtime then (true, db)
      else
        match file.content with
        | none => (false, { db with last_modified := file.mtime, file_path := path })
        | some lines =>
            (true, { db with
                       last_modified := file.mtime
                       file_path := path
                       addresses := (loadLoop lines ∅ [] ∅ []).1
                       address_list := (loadLoop lines ∅ [] ∅ []).2
                       count := (loadLoop lines ∅ [] ∅ []).1.card })

/-- The method `AddressDatabase.contains`. -/
def contains (db : AddressDatabase) (address : String) : Bool :=
  decide (address ∈ db.addresses)

/-- Failure mode of `AddressDatabase.get_sample_addresses`. -/
inductive SampleError where
  | zeroDivision
deriving DecidableEq

/-- Python's `l[::step]` for a positive step: the elements whose index is a
multiple of `step`. -/
def sliceStep (l : List String) (step : Nat) : List String :=
  (l.enum.filter (fun p => p.1 % step = 0)).map Prod.snd

/-- The method `AddressDatabase.get_sample_addresses`: returns the whole
list when it has at most `count` elements; otherwise computes
`step = len(address_list) // count` — which raises `ZeroDivisionError` when
`count = 0` — and returns `address_list[::step][:count]`. -/
def get_sample_addresses (db : AddressDatabase) (count : Nat) :
    Except SampleError (List String) :=
  if db.address_list.length ≤ count then Except.ok db.address_list
  else if count = 0 then Except.error SampleError.zeroDivision
  else
    let step := db.address_list.length / count
    Except.ok ((sliceStep db.address_list step).take count)

/-- The non-blank stripped lines of a file, in order, duplicates kept. -/
def trimmedLines (lines : List String) : List String :=
  (lines.map strip).filter (fun a => a ≠ "")

lemma loadLoop_spec :
    ∀ (lines : List String) (temp_set : Finset String) (temp_list : List String)
      (batch : Finset String) (batch_list : List String),
      (batch = ∅ → batch_list = []) →
      loadLoop lines temp_set temp_list batch batch_list =
        (temp_set ∪ batch ∪ (trimmedLines lines).toFinset,
         temp_list ++ batch_list ++ trimmedLines lines) := by
  intro lines
  induction lines with
  | nil =>
      intro ts tl b bl hb
      simp only [loadLoop, trimmedLines, List.map_nil, List.filter_nil, List.toFinset_nil,
        Finset.union_empty, List.append_nil]
      by_cases hbe : b = ∅
      · rw [if_pos hbe, hbe, hb hbe]
        simp
      · rw [if_neg hbe]
  | cons line rest ih =>
      intro ts tl b bl hb
      by_cases htrim : strip line = ""
      · have hrec := ih ts tl b bl hb
        simp only [loadLoop, htrim, if_pos, reduceIte] at hrec ⊢
        rw [hrec]
        have : trimmedLines (line :: rest) = trimmedLines rest := by
          simp [trimmedLines, htrim]
        rw [this]
      · have hTL : trimmedLines (line :: rest) = strip line :: trimmedLines rest := by
          simp [trimmedLines, htrim]
        simp only [loadLoop, htrim, reduceIte]
        by_cases hflush : BATCH_SIZE ≤ (insert (strip line) b).card
        · rw [if_pos hflush]
          rw [ih (ts ∪ insert (strip line) b) (tl ++ (bl ++ [strip line])) ∅ [] (fun _ => rfl)]
          rw [hTL]
          refine Prod.ext ?_ ?_
          · show ts ∪ insert (strip line) b ∪ ∅ ∪ (trimmedLines rest).toFinset =
              ts ∪ b ∪ (strip line :: trimmedLines rest).toFinset
            ext x
            simp only [Finset.mem_union, Finset.mem_insert, List.toFinset_cons,
              Finset.not_mem_empty, List.mem_toFinset, or_false]
            tauto
          · show tl ++ (bl ++ [strip line]) ++ [] ++ trimmedLines rest =
              tl ++ bl ++ (strip line :: trimmedLines rest)
            simp
        · rw [if_neg hflush]
          rw [ih ts tl (insert (strip line) b) (bl ++ [strip line])
            (fun hemp => absurd hemp (Finset.insert_ne_empty _ _))]
          rw [hTL]
          refine Prod.ext ?_ ?_
          · show ts ∪ insert (strip line) b ∪ (trimmedLines rest).toFinset =
              ts ∪ b ∪ (strip line :: trimmedLines rest).toFinset
            ext x
            simp only [Finset.mem_union, Finset.mem_insert, List.toFinset_cons,
              List.mem_toFinset]
            tauto
          · show tl ++ (bl ++ [strip line]) ++ trimmedLines rest =
              tl ++ bl ++ (strip line :: trimmedLines rest)
            simp

/-- Unfolding `load` when the path does not exist. -/
lemma load_none (fs : String → Option File) (path : String) (db : AddressDatabase)
    (hfs : fs path = none) : load fs path db = (false, db) := by
  unfold load
  rw [hfs]

/-- Unfolding `load` when the path and mtime match the last load attempt:
the early return. -/
lemma load_cached (fs : String → Option File) (path : String) (db : AddressDatabase)
    (file : File) (hfs : fs path = some file)
    (hc : db.file_path = path ∧ db.last_modified = file.mtime) :
    load fs path db = (true, db) := by
  unfold load
  rw [hfs]
  show (if db.file_path = path ∧ db.last_modified = file.mtime then (true, db) else _) =
    (true, db)
  rw [if_pos hc]

/-- Unfolding `load` when the path exists but reading raises: failure is
returned, but `last_modified` and `file_path` have already been updated. -/
lemma load_read_fail (fs : String → Option File) (path : String) (db : AddressDatabase)
    (file : File) (hfs : fs path = some file)
    (hc : ¬(db.file_path = path ∧ db.last_modified = file.mtime))
    (hcontent : file.content = none) :
    load fs path db = (false, { db with last_modified := file.mtime, file_path := path }) := by
  unfold load
  rw [hfs]
  show (if db.file_path = path ∧ db.last_modified = file.mtime then (true, db) else _) = _
  rw [if_neg hc, hcontent]

/-- Unfolding `load` when the file is actually read: the stripped non-blank
lines are published. -/
lemma load_read (fs : String → Option File) (path : String) (db : AddressDatabase)
    (file : File) (lines : List String) (hfs : fs path = some file)
    (hc : ¬(db.file_path = path ∧ db.last_modified = file.mtime))
    (hcontent : file.content = some lines) :
    load fs path db =
      (true, { addresses := (trimmedLines lines).toFinset,
               address_list := trimmedLines lines,
               count := (trimmedLines lines).toFinset.card,
               file_path := path,
               last_modified := file.mtime }) := by
  unfold load
  rw [hfs]
  show (if db.file_path = path ∧ db.last_modified = file.mtime then (true, db) else _) = _
  rw [if_neg hc, hcontent]
  show (true,
      ({ addresses := (loadLoop lines ∅ [] ∅ []).1,
         address_list := (loadLoop lines ∅ [] ∅ []).2,
         count := (loadLoop lines ∅ [] ∅ []).1.card,
         file_path := path,
         last_modified := file.mtime } : AddressDatabase)) = _
  rw [loadLoop_spec lines ∅ [] ∅ [] (fun _ => rfl)]
  simp

/-- Filesystem used by concrete witnesses: a single readable file `"f"`. -/
def fsW : String → Option File :=
  fun p => if p = "f" then some { mtime := 1, content := some ["a", "", " b "] } else none

/-- Filesystem used by concrete counterexamples: the file `"g"` exists but
reading it raises. -/
def fsBad : String → Option File :=
  fun p => if p = "g" then some { mtime := 5, content := none } else none

/-- C3: calling `load` again with the path and mtime unchanged since the
last successful load returns success without touching the database, so the
published snapshot (address set and sample order) is identical to the one
of the last successful load. -/
theorem load_idempotent (fs : String → Option File) (path : String)
    (db0 db1 : AddressDatabase) (h : load fs path db0 = (true, db1)) :
    load fs path db1 = (true, db1) := by
  cases hfs : fs path with
  | none =>
      rw [load_none fs path db0 hfs] at h
      cases h
  | some file =>
      by_cases hc : db0.file_path = path ∧ db0.last_modified = file.mtime
      · rw [load_cached fs path db0 file hfs hc] at h
        have hdb : db0 = db1 := congrArg Prod.snd h
        subst hdb
        exact load_cached fs path db0 file hfs hc
      · cases hcontent : file.content with
        | none =>
            rw [load_read_fail fs path db0 file hfs hc hcontent] at h
            cases h
        | some lines =>
            rw [load_read fs path db0 file lines hfs hc hcontent] at h
            have hdb : ({ addresses := (trimmedLines lines).toFinset,
                          address_list := trimmedLines lines,
                          count := (trimmedLines lines).toFinset.card,
                          file_path := path,
                          last_modified := file.mtime } : AddressDatabase) = db1 :=
              congrArg Prod.snd h
            subst hdb
            exact load_cached fs path _ file hfs ⟨rfl, rfl⟩

theorem load_idempotent_witness :
    load fsW "f" (load fsW "f" initialDb).2 = (true, (load fsW "f" initialDb).2) :=
  load_idempotent fsW "f" initialDb (load fsW "f" initialDb).2 (Prod.ext rfl rfl)

/-- C4 counterexample: a failing load is not always a pure no-op on the
index state.  Here the path `"g"` exists but reading raises; `load` returns
failure, yet the `file_path` field has been updated from `""` to `"g"`
(and `last_modified` from `0` to `5`), so a field of the index is changed
by the failing invocation. -/
theorem load_failure_counterexample :
    (load fsBad "g" initialDb).1 = false ∧
    (load fsBad "g" initialDb).2.file_path = "g" ∧
    (load fsBad "g" initialDb).2.last_modified = 5 ∧
    initialDb.file_path = "" ∧
    initialDb.last_modified = 0 ∧
    (load fsBad "g" initialDb).2 ≠ initialDb := by
  refine ⟨rfl, rfl, rfl, rfl, rfl, fun hEq => ?_⟩
  have h2 : (load fsBad "g" initialDb).2.file_path = initialDb.file_path :=
    congrArg AddressDatabase.file_path hEq
  exact absurd h2 (by decide)

/-- C4 amended: every failing `load` leaves the published snapshot — the
address set, the ordered sample list and the count — unchanged; only the
`file_path` and `last_modified` bookkeeping fields may have been updated. -/
theorem load_failure_preserves_snapshot (fs : String → Option File) (path : String)
    (db db1 : AddressDatabase) (h : load fs path db = (false, db1)) :
    db1.addresses = db.addresses ∧ db1.address_list = db.address_list ∧
      db1.count = db.count := by
  cases hfs : fs path with
  | none =>
      rw [load_none fs path db hfs] at h
      have hdb : db = db1 := congrArg Prod.snd h
      subst hdb
      exact ⟨rfl, rfl, rfl⟩
  | some file =>
      by_cases hc : db.file_path = path ∧ db.last_modified = file.mtime
      · rw [load_cached fs path db file hfs hc] at h
        cases h
      · cases hcontent : file.content with
        | none =>
            rw [load_read_fail fs path db file hfs hc hcontent] at h
            have hdb : ({ db with last_modified := file.mtime, file_path := path } :
                AddressDatabase) = db1 := congrArg Prod.snd h
            rw [← hdb]
            exact ⟨rfl, rfl, rfl⟩
        | some lines =>
            rw [load_read fs path db file lines hfs hc hcontent] at h
            cases h

theorem load_failure_preserves_snapshot_witness :
    (load fsBad "g" initialDb).2.addresses = initialDb.addresses ∧
    (load fsBad "g" initialDb).2.address_list = initialDb.address_list ∧
    (load fsBad "g" initialDb).2.count = initialDb.count :=
  load_failure_preserves_snapshot fsBad "g" initialDb (load fsBad "g" initialDb).2
    (Prod.ext rfl rfl)

/-- C5: after a successful load that read the file, `contains a` holds iff
`a` is the strip of some line of the file and `a` is not blank, so blank
lines never contribute members. -/
theorem contains_iff_trimmed_line (fs : String → Option File) (path : String)
    (db : AddressDatabase) (m : Nat) (lines : List String) (a : String)
    (hfs : fs path = some { mtime := m, content := some lines })
    (hne : ¬(db.file_path = path ∧ db.last_modified = m)) :
    contains (load fs path db).2 a = true ↔ (a ≠ "" ∧ ∃ l ∈ lines, strip l = a) := by
  rw [load_read fs path db { mtime := m, content := some lines } lines hfs hne rfl]
  simp only [contains, decide_eq_true_eq, trimmedLines, List.mem_toFinset, List.mem_filter,
    List.mem_map]
  constructor
  · rintro ⟨⟨l, hl, rfl⟩, hb⟩
    exact ⟨by simpa using hb, l, hl, rfl⟩
  · rintro ⟨hb, l, hl, rfl⟩
    exact ⟨⟨l, hl, rfl⟩, by simpa using hb⟩

theorem contains_iff_trimmed_line_witness :
    contains (load fsW "f" initialDb).2 "b" = true :=
  (contains_iff_trimmed_line fsW "f" initialDb 1 ["a", "", " b "] "b" (by decide)
    (by decide)).mpr ⟨by decide, " b ", by decide, by decide⟩

/-- C6: after a successful load that read a non-empty file, the published
count equals the number of distinct non-blank stripped lines. -/
theorem load_count_distinct (fs : String → Option File) (path : String)
    (db : AddressDatabase) (m : Nat) (lines : List String)
    (hfs : fs path = some { mtime := m, content := some lines })
    (hne : ¬(db.file_path = path ∧ db.last_modified = m))
    (_hnonempty : lines ≠ []) :
    (load fs path db).2.count =
      ((lines.map strip).filter (fun a => a ≠ "")).dedup.length := by
  rw [load_read fs path db { mtime := m, content := some lines } lines hfs hne rfl]
  show (trimmedLines lines).toFinset.card = _
  rw [List.card_toFinset]
  rfl

theorem load_count_distinct_witness :
    (load fsW "f" initialDb).2.count =
      (((["a", "", " b "].map strip).filter (fun a => a ≠ "")).dedup.length) :=
  load_count_distinct fsW "f" initialDb 1 ["a", "", " b "] (by decide) (by decide) (by decide)

/-- C10: `get_sample_addresses` raises `ZeroDivisionError` on a non-empty
index with `count = 0`; for `count ≥ 1` it returns at most `count`
addresses; and whenever the index holds at most `count` addresses it
returns the entire ordered list. -/
theorem get_sample_addresses_spec (db : AddressDatabase) (count : Nat) :
    (db.address_list ≠ [] → count = 0 →
        get_sample_addresses db count = Except.error SampleError.zeroDivision) ∧
    (1 ≤ count → ∃ r, get_sample_addresses db count = Except.ok r ∧ r.length ≤ count) ∧
    (db.address_list.length ≤ count →
        get_sample_addresses db count = Except.ok db.address_list) := by
  refine ⟨?_, ?_, ?_⟩
  · intro hne hz
    have hlen : ¬ db.address_list.length ≤ count := by
      subst hz
      simpa [Nat.pos_iff_ne_zero] using List.length_pos.mpr hne
    unfold get_sample_addresses
    rw [if_neg hlen, if_pos hz]
  · intro hpos
    by_cases hlen : db.address_list.length ≤ count
    · refine ⟨db.address_list, ?_, by omega⟩
      unfold get_sample_addresses
      rw [if_pos hlen]
    · have hz : ¬ count = 0 := by omega
      refine ⟨(sliceStep db.address_list (db.address_list.length / count)).take count, ?_, ?_⟩
      · unfold get_sample_addresses
        rw [if_neg hlen, if_neg hz]
      · simp
  · intro hlen
    unfold get_sample_addresses
    rw [if_pos hlen]

/-- Database value with three addresses, used to instantiate C10. -/
def dbW3 : AddressDatabase :=
  { addresses := ∅, address_list := ["a", "b", "c"], count := 3,
    file_path := "", last_modified := 0 }

theorem get_sample_addresses_spec_witness :
    get_sample_addresses dbW3 0 = Except.error SampleError.zeroDivision ∧
    (∃ r, get_sample_addresses dbW3 2 = Except.ok r ∧ r.length ≤ 2) :=
  ⟨(get_sample_addresses_spec dbW3 0).1 (by decide) rfl,
   (get_sample_addresses_spec dbW3 2).2.1 (by decide)⟩

/-- One entry of `WalletGenerator.generation_history`: the dictionary built
by `WalletGenerator.generate`. -/
structure Generation where
  mnemonic : String
  addresses : List (Scheme × Option String)
  time : String
  word_length : String
deriving DecidableEq

/-- Mutable state of `WalletGenerator`: the mode string and the recovery
data (`_last_generation`, `generation_history`). -/
structure WalletGenerator where
  mode : String
  last_generation : Option Generation
  generation_history : List Generation
deriving DecidableEq

/-- The state `WalletGenerator.__init__(mode)` produces. -/
def freshGenerator (mode : String) : WalletGenerator :=
  { mode := mode, last_generation := none, generation_history := [] }

/-- Outcome of the body of `WalletGenerator.generate` up to the derivation
loop.  `ok mnemonic word_length derive1` abstracts the successful calls to
`random.choice`, `Mnemonic.generate` and `Bip39SeedGenerator`: `derive1 t`
is the result of `bip_class.FromSeed(seed, coin).DeriveDefaultPath().
PublicKey().ToAddress()` for scheme `t`, with `none` when that per-scheme
call raises (the inner `try`).  `exn msg` means the body raises before or
during mnemonic/seed generation (the outer `try`). -/
inductive GenOutcome where
  | ok (mnemonic : String) (word_length : String) (derive1 : Scheme → Option String)
  | exn (msg : String)

/-- The per-scheme derivation loop of `WalletGenerator.generate`: for every
scheme in `DERIVATION_PATHS` order, record the derived address, or `None`
when that scheme's derivation raises, and continue with the next scheme. -/
def deriveAddresses (derive1 : Scheme → Option String) : List (Scheme × Option String) :=
  ADDRESS_TYPES.map (fun t => (t, derive1 t))

/-- The method `WalletGenerator.generate`.  On success it records the
generation as `_last_generation`, appends it to the history (popping the
front when the history exceeds `DISPLAY_HISTORY`) and returns the mnemonic
with the address mapping.  When the body raises, it returns the previous
generation's mnemonic and addresses if one exists (state unchanged), and
otherwise raises `RuntimeError`. -/
def generate (outcome : GenOutcome) (time : String) (g : WalletGenerator) :
    Except String ((String × List (Scheme × Option String)) × WalletGenerator) :=
  match outcome with
  | GenOutcome.ok mnemonic word_length derive1 =>
      let generation : Generation :=
        { mnemonic := mnemonic, addresses := deriveAddresses derive1,
          time := time, word_length := word_length }
      Except.ok ((mnemonic, deriveAddresses derive1),
        { g with
            last_generation := some generation
            generation_history :=
              if DISPLAY_HISTORY < (g.generation_history ++ [generation]).length then
                (g.generation_history ++ [generation]).drop 1
              else
                g.generation_history ++ [generation] })
  | GenOutcome.exn msg =>
      match g.last_generation with
      | some prev => Except.ok ((prev.mnemonic, prev.addresses), g)
      | none => Except.error ("Generation failed: " ++ msg)

/-- C8: within one candidate, a failing scheme contributes `None` for that
scheme only — every scheme still has an entry in the produced mapping, each
other scheme's entry is its own derivation result, and `generate` still
succeeds (neither the candidate nor the worker is aborted). -/
theorem derive_failure_isolated (derive1 : Scheme → Option String) (s0 : Scheme)
    (hfail : derive1 s0 = none) :
    ((s0, (none : Option String)) ∈ deriveAddresses derive1) ∧
    (∀ s : Scheme, s ≠ s0 → (s, derive1 s) ∈ deriveAddresses derive1) ∧
    (∀ m wl tm g, ∃ r, generate (GenOutcome.ok m wl derive1) tm g = Except.ok r) := by
  refine ⟨?_, ?_, ?_⟩
  · have hmem : (s0, derive1 s0) ∈ deriveAddresses derive1 := by
      cases s0 <;> simp [deriveAddresses, ADDRESS_TYPES]
    rwa [hfail] at hmem
  · intro s _
    cases s <;> simp [deriveAddresses, ADDRESS_TYPES]
  · intro m wl tm g
    exact ⟨_, rfl⟩

/-- Derivation oracle where exactly the P2TR scheme fails. -/
def dFail : Scheme → Option String :=
  fun s => if s = Scheme.P2TR then none else some "addr"

theorem derive_failure_isolated_witness :
    ((Scheme.P2TR, (none : Option String)) ∈ deriveAddresses dFail) ∧
    ((Scheme.P2PKH, dFail Scheme.P2PKH) ∈ deriveAddresses dFail) ∧
    (∃ r, generate (GenOutcome.ok "m" "12" dFail) "t" (freshGenerator "random")
        = Except.ok r) :=
  ⟨(derive_failure_isolated dFail Scheme.P2TR (by decide)).1,
   (derive_failure_isolated dFail Scheme.P2TR (by decide)).2.1 Scheme.P2PKH (by decide),
   (derive_failure_isolated dFail Scheme.P2TR (by decide)).2.2 "m" "12" "t"
     (freshGenerator "random")⟩

/-- C9: when the body of `generate` raises after at least one earlier
successful generation, the previous generation's mnemonic and addresses are
returned again (state unchanged); `RuntimeError` is raised only when no
prior successful generation exists. -/
theorem generate_exception_fallback (msg time : String) (g : WalletGenerator) :
    (∀ prev, g.last_generation = some prev →
        generate (GenOutcome.exn msg) time g =
          Except.ok ((prev.mnemonic, prev.addresses), g)) ∧
    (g.last_generation = none →
        generate (GenOutcome.exn msg) time g =
          Except.error ("Generation failed: " ++ msg)) := by
  constructor
  · intro prev hprev
    unfold generate
    rw [hprev]
  · intro hnone
    unfold generate
    rw [hnone]

/-- A generation value used to instantiate C9. -/
def prevGen : Generation :=
  { mnemonic := "prev words", addresses := [(Scheme.P2PKH, some "a1")],
    time := "t0", word_length := "12" }

/-- Generator state that has already produced `prevGen`. -/
def genWithPrev : WalletGenerator :=
  { mode := "random", last_generation := some prevGen, generation_history := [prevGen] }

theorem generate_exception_fallback_witness :
    generate (GenOutcome.exn "boom") "t1" genWithPrev =
      Except.ok ((prevGen.mnemonic, prevGen.addresses), genWithPrev) ∧
    generate (GenOutcome.exn "boom") "t1" (freshGenerator "random") =
      Except.error ("Generation failed: " ++ "boom") :=
  ⟨(generate_exception_fallback "boom" "t1" genWithPrev).1 prevGen rfl,
   (generate_exception_fallback "boom" "t1" (freshGenerator "random")).2 rfl⟩

/-- Worker-local counters and the `_running` flag of `ScannerWorker`. -/
structure ScannerWorker where
  checked : Nat
  found : Nat
  running : Bool
deriving DecidableEq

/-- The state `ScannerWorker.__init__` produces. -/
def initialWorker : ScannerWorker :=
  { checked := 0, found := 0, running := false }

/-- The signals a worker emits (`found_signal`, `generation_signal`,
`progress_signal`, `error_signal`), with the payload fields the claims are
about. -/
inductive WEvent where
  | found (worker : Nat) (mnemonic : String) (hits : List (Scheme × String))
  | generation (worker : Nat) (mnemonic : String)
  | progress (worker : Nat) (checked : Nat) (foundCount : Nat)
  | error (worker : Nat) (msg : String)
deriving DecidableEq

/-- Test for a ProgressEvent. -/
def isProgress : WEvent → Bool
  | WEvent.progress _ _ _ => true
  | _ => false

/-- Test for an ErrorEvent. -/
def isError : WEvent → Bool
  | WEvent.error _ _ => true
  | _ => false

/-- Number of ProgressEvents in an emitted event list. -/
def progressCount (evs : List WEvent) : Nat := (evs.filter isProgress).length

/-- Number of ErrorEvents in an emitted event list. -/
def errorCount (evs : List WEvent) : Nat := (evs.filter isError).length

/-- The method `ScannerWorker._process_generation` for one iteration.
Faithful to the source: on success, the found list collects the active
address types whose derived address is truthy and in the database;
`_checked` is incremented by `len(addresses)` (the size of the address
dictionary, not 1); a FoundEvent is emitted when matches exist, a
GenerationEvent always, and a ProgressEvent exactly when the incremented
`_checked` is a multiple of 100.  Any raise inside the body (in the model:
`generate` raising) is caught and reported as a non-fatal ErrorEvent. -/
def process_generation (wid : Nat) (db : AddressDatabase) (active : List Scheme)
    (outcome : GenOutcome) (tm : String) (s : ScannerWorker) (g : WalletGenerator) :
    ScannerWorker × WalletGenerator × List WEvent :=
  match generate outcome tm g with
  | Except.error msg => (s, g, [WEvent.error wid ("Worker error: " ++ msg)])
  | Except.ok ((mnemonic, addresses), g1) =>
      let fnd := active.filterMap (fun t =>
        match (addresses.lookup t).join with
        | some a => if a ≠ "" ∧ contains db a then some (t, a) else none
        | none => none)
      let s1 : ScannerWorker := { s with checked := s.checked + addresses.length }
      let s2 : ScannerWorker :=
        if fnd.isEmpty then s1 else { s1 with found := s1.found + fnd.length }
      let foundEvents := if fnd.isEmpty then [] else [WEvent.found wid mnemonic fnd]
      let progressEvents :=
        if s2.checked % 100 = 0 then [WEvent.progress wid s2.checked s2.found] else []
      (s2, g1, foundEvents ++ [WEvent.generation wid mnemonic] ++ progressEvents)

/-- The loop body of `ScannerWorker.run`: while `_running` is set, process
one generation per schedule entry.  The schedule supplies, per iteration,
the abstract outcome of the generator body and the wall-clock string. -/
def runLoop (wid : Nat) (db : AddressDatabase) (active : List Scheme) :
    List (GenOutcome × String) → ScannerWorker → WalletGenerator →
      ScannerWorker × WalletGenerator × List WEvent
  | [], s, g => (s, g, [])
  | (outcome, tm) :: rest, s, g =>
      if s.running then
        let r := process_generation wid db active outcome tm s g
        let r2 := runLoop wid db active rest r.1 r.2.1
        (r2.1, r2.2.1, r.2.2 ++ r2.2.2)
      else (s, g, [])

/-- The method `ScannerWorker.run`: sets `_running = True`, then loops. -/
def runWorker (wid : Nat) (db : AddressDatabase) (active : List Scheme)
    (sched : List (GenOutcome × String)) (g : WalletGenerator) :
    ScannerWorker × WalletGenerator × List WEvent :=
  runLoop wid db active sched { initialWorker with running := true } g

lemma process_generation_ok (wid : Nat) (db : AddressDatabase) (active : List Scheme)
    (m wl : String) (derive1 : Scheme → Option String) (tm : String)
    (s : ScannerWorker) (g : WalletGenerator) :
    (process_generation wid db active (GenOutcome.ok m wl derive1) tm s g).1.checked
        = s.checked + 4 ∧
    (process_generation wid db active (GenOutcome.ok m wl derive1) tm s g).1.running
        = s.running ∧
    progressCount (process_generation wid db active (GenOutcome.ok m wl derive1) tm s g).2.2
        = (if (s.checked + 4) % 100 = 0 then 1 else 0) := by
  have hlen : (deriveAddresses derive1).length = 4 := by
    simp [deriveAddresses, ADDRESS_TYPES]
  unfold process_generation generate
  simp only [hlen]
  by_cases hf : (active.filterMap (fun t =>
      match ((deriveAddresses derive1).lookup t).join with
      | some a => if a ≠ "" ∧ contains db a then some (t, a) else none
      | none => none)).isEmpty
  · simp only [hf, reduceIte]
    refine ⟨by trivial, by trivial, ?_⟩
    by_cases hp : (s.checked + 4) % 100 = 0
    · simp [hp, progressCount, isProgress]
    · simp [hp, progressCount, isProgress]
  · simp only [hf, reduceIte]
    refine ⟨by trivial, by trivial, ?_⟩
    by_cases hp : (s.checked + 4) % 100 = 0
    · simp [hp, progressCount, isProgress]
    · simp [hp, progressCount, isProgress]

lemma process_generation_exn (wid : Nat) (db : AddressDatabase) (active : List Scheme)
    (msg tm : String) (s : ScannerWorker) (g : WalletGenerator)
    (hg : g.last_generation = none) :
    process_generation wid db active (GenOutcome.exn msg) tm s g =
      (s, g, [WEvent.error wid ("Worker error: " ++ ("Generation failed: " ++ msg))]) := by
  unfold process_generation generate
  rw [hg]

lemma runLoop_ok_spec (wid : Nat) (db : AddressDatabase) (active : List Scheme)
    (m wl : String) (derive1 : Scheme → Option String) (tm : String) :
    ∀ (n k : Nat) (s : ScannerWorker) (g : WalletGenerator),
      s.running = true → s.checked = 4 * k →
      (runLoop wid db active (List.replicate n (GenOutcome.ok m wl derive1, tm)) s g).1.checked
          = 4 * (k + n) ∧
      (runLoop wid db active (List.replicate n (GenOutcome.ok m wl derive1, tm)) s g).1.running
          = true ∧
      progressCount
          (runLoop wid db active (List.replicate n (GenOutcome.ok m wl derive1, tm)) s g).2.2
          = (k + n) / 25 - k / 25 := by
  intro n
  induction n with
  | zero =>
      intro k s g hrun hchk
      simp only [List.replicate, runLoop]
      exact ⟨by omega, hrun, by simp [progressCount]⟩
  | succ n ih =>
      intro k s g hrun hchk
      rw [List.replicate_succ]
      obtain ⟨h1, h2, h3⟩ :=
        process_generation_ok wid db active m wl derive1 tm s g
      have hstep : (process_generation wid db active (GenOutcome.ok m wl derive1) tm s g).1.checked
          = 4 * (k + 1) := by omega
      obtain ⟨ih1, ih2, ih3⟩ := ih (k + 1)
        (process_generation wid db active (GenOutcome.ok m wl derive1) tm s g).1
        (process_generation wid db active (GenOutcome.ok m wl derive1) tm s g).2.1
        (by rw [h2, hrun]) hstep
      simp only [runLoop, hrun, reduceIte]
      refine ⟨by rw [ih1]; omega, ih2, ?_⟩
      rw [progressCount, List.filter_append]
      rw [show ∀ l1 l2 : List WEvent, (l1 ++ l2).length = l1.length + l2.length from
        fun l1 l2 => List.length_append l1 l2]
      have hpc : (List.filter isProgress
          (process_generation wid db active (GenOutcome.ok m wl derive1) tm s g).2.2).length
          = (if (s.checked + 4) % 100 = 0 then 1 else 0) := h3
      rw [hpc]
      have hrest : (List.filter isProgress
          (runLoop wid db active (List.replicate n (GenOutcome.ok m wl derive1, tm))
            (process_generation wid db active (GenOutcome.ok m wl derive1) tm s g).1
            (process_generation wid db active (GenOutcome.ok m wl derive1) tm s g).2.1).2.2).length
          = (k + 1 + n) / 25 - (k + 1) / 25 := ih3
      rw [hrest]
      have hmono : (k + 1) / 25 ≤ (k + 1 + n) / 25 := Nat.div_le_div_right (by omega)
      rw [hchk]
      split_ifs with hp <;> omega

/-- C2 counterexample: ProgressEvents are not emitted once per 100
candidates, and `checked_count` does not count candidates.  With every
iteration succeeding, a single candidate already raises the checked counter
to 4 (the four address types derived for it), and processing 25 candidates
already emits one ProgressEvent (at `checked = 100`), while the claim would
require zero ProgressEvents before the 100th candidate and `checked = 1`
after the first. -/
theorem progress_batch_counterexample :
    (runWorker 1 initialDb []
        (List.replicate 1 (GenOutcome.ok "m" "12" (fun _ => some "a"), "t"))
        (freshGenerator "random")).1.checked = 4 ∧
    progressCount (runWorker 1 initialDb []
        (List.replicate 25 (GenOutcome.ok "m" "12" (fun _ => some "a"), "t"))
        (freshGenerator "random")).2.2 = 1 := by
  constructor
  · have h := runLoop_ok_spec 1 initialDb [] "m" "12" (fun _ => some "a") "t" 1 0
      { initialWorker with running := true } (freshGenerator "random") rfl rfl
    exact h.1
  · have h := runLoop_ok_spec 1 initialDb [] "m" "12" (fun _ => some "a") "t" 25 0
      { initialWorker with running := true } (freshGenerator "random") rfl rfl
    exact h.2.2

/-- C2 amended: for a worker whose iterations all succeed, `checked_count`
counts derived address entries — it rises by 4 per candidate, so it equals
`4 * n` after `n` candidates (monotonically increasing) — and a
ProgressEvent is emitted exactly once per 25 candidates (whenever the
address counter crosses a multiple of 100), i.e. `n / 25` events after `n`
candidates; the speed payload divides this address counter by elapsed time,
so it measures addresses per second, not candidates per second. -/
theorem worker_progress_every_25 (wid : Nat) (db : AddressDatabase) (active : List Scheme)
    (m wl : String) (derive1 : Scheme → Option String) (tm : String)
    (g : WalletGenerator) (n : Nat) :
    (runWorker wid db active (List.replicate n (GenOutcome.ok m wl derive1, tm)) g).1.checked
        = 4 * n ∧
    progressCount
        (runWorker wid db active (List.replicate n (GenOutcome.ok m wl derive1, tm)) g).2.2
        = n / 25 := by
  have h := runLoop_ok_spec wid db active m wl derive1 tm n 0
    { initialWorker with running := true } g rfl rfl
  exact ⟨by simpa using h.1, by simpa using h.2.2⟩

lemma runLoop_exn_spec (wid : Nat) (db : AddressDatabase) (active : List Scheme)
    (msg tm : String) :
    ∀ (n : Nat) (s : ScannerWorker) (g : WalletGenerator),
      s.running = true → g.last_generation = none →
      runLoop wid db active (List.replicate n (GenOutcome.exn msg, tm)) s g =
        (s, g, List.replicate n
          (WEvent.error wid ("Worker error: " ++ ("Generation failed: " ++ msg)))) := by
  intro n
  induction n with
  | zero =>
      intro s g hrun hg
      simp [runLoop]
  | succ n ih =>
      intro s g hrun hg
      rw [List.replicate_succ]
      simp only [runLoop, hrun, reduceIte]
      rw [process_generation_exn wid db active msg tm s g hg]
      rw [ih s g hrun hg]
      rw [List.replicate_succ]
      rfl

/-- C7 counterexample: a worker does not self-stop after three consecutive
iteration failures.  With a fresh generator, three consecutive failing
iterations leave `_running` true, emit three non-fatal ErrorEvents and no
fatal escalation, and a fourth failing iteration is still processed (four
ErrorEvents after a schedule of four failures). -/
theorem worker_three_failures_counterexample :
    (runWorker 1 initialDb [] (List.replicate 3 (GenOutcome.exn "boom", "t"))
        (freshGenerator "random")).1.running = true ∧
    errorCount (runWorker 1 initialDb [] (List.replicate 3 (GenOutcome.exn "boom", "t"))
        (freshGenerator "random")).2.2 = 3 ∧
    errorCount (runWorker 1 initialDb [] (List.replicate 4 (GenOutcome.exn "boom", "t"))
        (freshGenerator "random")).2.2 = 4 := by
  have h3 := runLoop_exn_spec 1 initialDb [] "boom" "t" 3
    { initialWorker with running := true } (freshGenerator "random") rfl rfl
  have h4 := runLoop_exn_spec 1 initialDb [] "boom" "t" 4
    { initialWorker with running := true } (freshGenerator "random") rfl rfl
  refine ⟨?_, ?_, ?_⟩
  · show (runLoop 1 initialDb [] _ _ _).1.running = true
    rw [h3]
  · show errorCount (runLoop 1 initialDb [] _ _ _).2.2 = 3
    rw [h3]
    rfl
  · show errorCount (runLoop 1 initialDb [] _ _ _).2.2 = 4
    rw [h4]
    rfl

/-- C7 amended: a worker never self-stops on consecutive iteration
failures: there is no failure counter, every failing iteration merely emits
a non-fatal ErrorEvent, and after any number `n` of consecutive failures —
three or more included — the worker is still running, having processed all
`n` iterations; the loop ends only by the external stop flag. -/
theorem worker_never_self_stops (wid : Nat) (db : AddressDatabase) (active : List Scheme)
    (msg tm mode : String) (n : Nat) :
    (runWorker wid db active (List.replicate n (GenOutcome.exn msg, tm))
        (freshGenerator mode)).1.running = true ∧
    errorCount (runWorker wid db active (List.replicate n (GenOutcome.exn msg, tm))
        (freshGenerator mode)).2.2 = n := by
  have h := runLoop_exn_spec wid db active msg tm n
    { initialWorker with running := true } (freshGenerator mode) rfl rfl
  constructor
  · show (runLoop wid db active _ _ _).1.running = true
    rw [h]
  · show errorCount (runLoop wid db active _ _ _).2.2 = n
    rw [h]
    simp [errorCount, isError, List.filter_replicate]

/-- Result of `MainWindow.start_scan`: either the early return after the
"Error: No addresses loaded" log (no workers created), or the scan started
with the identifiers of the spawned workers. -/
inductive StartResult where
  | noAddresses
  | started (workers : List Nat)
deriving DecidableEq

/-- The method `MainWindow.start_scan`, restricted to its control logic:
if the database count is zero, log an error and return without creating
workers; otherwise create `thread_limit` workers with identifiers
`1 .. thread_limit` and start them.  The list of active address types is
taken from the checked boxes but is never validated: no guard inspects
`active_address_types`. -/
def start_scan (dbCount : Nat) (thread_limit : Nat)
    (active_address_types : List Scheme) : StartResult :=
  if dbCount = 0 then StartResult.noAddresses
  else
    let _ := active_address_types
    StartResult.started ((List.range thread_limit).map (fun i => i + 1))

/-- C1 counterexample: with one loaded address, two threads and an empty
set of active schemes, the scan starts anyway and spawns two workers;
there is no `NoSchemesSelected` failure. -/
theorem start_scan_empty_schemes_counterexample :
    start_scan 1 2 [] = StartResult.started [1, 2] := by
  rfl

/-- C1 amended: `start_scan` never checks the active schemes.  Its only
guard is the empty index: with `dbCount = 0` it fails and spawns no
workers; with a non-empty index it spawns `thread_limit` workers with
distinct identifiers even when zero schemes are selected. -/
theorem start_scan_spec (dbCount thread_limit : Nat) (active : List Scheme) :
    (dbCount = 0 → start_scan dbCount thread_limit active = StartResult.noAddresses) ∧
    (dbCount ≠ 0 → ∃ ws, start_scan dbCount thread_limit active = StartResult.started ws ∧
        ws.length = thread_limit ∧ ws.Nodup) := by
  constructor
  · intro hz
    unfold start_scan
    rw [if_pos hz]
  · intro hnz
    refine ⟨(List.range thread_limit).map (fun i => i + 1), ?_, by simp, ?_⟩
    · unfold start_scan
      rw [if_neg hnz]
    · exact (List.nodup_range thread_limit).map (fun a b hab => by omega)

theorem start_scan_spec_witness :
    start_scan 0 3 [] = StartResult.noAddresses ∧
    (∃ ws, start_scan 2 3 [] = StartResult.started ws ∧ ws.length = 3 ∧ ws.Nodup) :=
  ⟨(start_scan_spec 0 3 []).1 rfl, (start_scan_spec 2 3 []).2 (by decide)⟩

end BTC14
